import Mathlib

/-!
# Verification of the Food-Wastage-Management data layer

Shallow embedding of the data-access and query layer of `src/app.py` and
the schema of `src/load_csv_to_db.py`: the four SQLite tables, the
filtered read queries, the claim-creation and status-update commands, the
generic delete, and the analytics aggregations.  Dates are modelled as
day numbers (`daysFromCivil`, the standard civil-calendar conversion, a
model of SQLite's `DATE` arithmetic); `DATETIME` strings in the canonical
`YYYY-MM-DD HH:MM:SS` format are kept as strings, whose lexicographic
order agrees with chronological order.
-/

/-- Row of the `providers` table (`load_csv_to_db.py`, CREATE TABLE providers).
`Type` is a reserved word in Lean, hence the field name `Type_`. -/
structure Provider where
  Provider_ID : Nat
  Name : String
  Type_ : String
  Address : String
  City : String
  Contact : String
deriving Repr, DecidableEq

/-- Row of the `receivers` table (`load_csv_to_db.py`, CREATE TABLE receivers). -/
structure Receiver where
  Receiver_ID : Nat
  Name : String
  Type_ : String
  City : String
  Contact : String
deriving Repr, DecidableEq

/-- Row of the `food_listings` table (`load_csv_to_db.py`, CREATE TABLE
food_listings).  `Expiry_Date` is the civil date as a day number. -/
structure FoodListing where
  Food_ID : Nat
  Food_Name : String
  Quantity : Int
  Expiry_Date : Int
  Provider_ID : Nat
  Provider_Type : String
  Location : String
  Food_Type : String
  Meal_Type : String
deriving Repr, DecidableEq

/-- Row of the `claims` table (`load_csv_to_db.py`, CREATE TABLE claims). -/
structure Claim where
  Claim_ID : Nat
  Food_ID : Nat
  Receiver_ID : Nat
  Status : String
  Timestamp : String
deriving Repr, DecidableEq

/-- The whole SQLite database `food_donation.db`: the four tables. -/
structure DB where
  providers : List Provider
  receivers : List Receiver
  food_listings : List FoodListing
  claims : List Claim
deriving Repr, DecidableEq

/-- `execute_query` (`app.py` lines 57-67): runs a read statement and, when
the underlying execution raises, swallows the exception and returns an empty
DataFrame.  The underlying execution is modelled by its outcome: `Except.ok
rows` when the statement succeeds with result `rows`, `Except.error e` when
it raises with message `e`. -/
def execute_query {α : Type} (run : Except String (List α)) : List α :=
  match run with
  | Except.ok df => df
  | Except.error _ => []

/-- Day number of a civil date (days since 1970-01-01), the standard
civil-from-days conversion; models SQLite's `DATE` values and arithmetic,
under which `DATE('now', '+3 days')` is `daysFromCivil y m d + 3` for the
current date `(y, m, d)`. -/
def daysFromCivil (y m d : Int) : Int :=
  let y2 : Int := if m ≤ 2 then y - 1 else y
  let era : Int := Int.fdiv y2 400
  let yoe : Int := y2 - era * 400
  let mp : Int := Int.emod (m + 9) 12
  let doy : Int := (153 * mp + 2) / 5 + d - 1
  let doe : Int := yoe * 365 + yoe / 4 - yoe / 100 + doy
  era * 146097 + doe - 719468

theorem daysFromCivil_checks :
    daysFromCivil 1970 1 1 = 0 ∧
    daysFromCivil 2024 1 2 = daysFromCivil 2024 1 1 + 1 ∧
    daysFromCivil 2024 1 10 = daysFromCivil 2024 1 1 + 9 := by
  refine ⟨by decide, by decide, by decide⟩

/-- C10: if the underlying statement execution raises an exception,
`execute_query` returns an empty result instead of propagating the error, so
at the return value a failed read is indistinguishable from a query that
legitimately matched zero rows. -/
theorem execute_query_error_empty {α : Type} (e : String) :
    execute_query (α := α) (Except.error e) = [] ∧
    execute_query (α := α) (Except.error e) = execute_query (Except.ok ([] : List α)) :=
  ⟨rfl, rfl⟩

/-- Result row of the Food Listings page query (`app.py` lines 164-169):
`SELECT fl.*, p.Name as Provider_Name, p.Contact as Provider_Contact FROM
food_listings fl JOIN providers p ON fl.Provider_ID = p.Provider_ID`. -/
structure FLRow where
  fl : FoodListing
  Provider_Name : String
  Provider_Contact : String
deriving Repr, DecidableEq

/-- The base join of the Food Listings page query (`app.py` lines 164-169). -/
def flJoin (db : DB) : List FLRow :=
  db.food_listings.flatMap fun fl =>
    (db.providers.filter fun p => p.Provider_ID == fl.Provider_ID).map
      fun p => ⟨fl, p.Name, p.Contact⟩

/-- The dynamically added `WHERE` clauses of the Food Listings page query
(`app.py` lines 170-182): each of the three selectbox filters adds an
equality constraint unless it is the sentinel `"All"`. -/
def matchesFilter (city ft mt : String) (r : FLRow) : Bool :=
  (city == "All" || r.fl.Location == city) &&
  ((ft == "All" || r.fl.Food_Type == ft) &&
   (mt == "All" || r.fl.Meal_Type == mt))

/-- Comparison by expiry date, the sort key of `ORDER BY fl.Expiry_Date`
(`app.py` line 184). -/
def expiryLe (a b : FLRow) : Prop := a.fl.Expiry_Date ≤ b.fl.Expiry_Date

instance : DecidableRel expiryLe := fun a b =>
  inferInstanceAs (Decidable (a.fl.Expiry_Date ≤ b.fl.Expiry_Date))

instance : IsTotal FLRow expiryLe := ⟨fun _ _ => Int.le_total _ _⟩

instance : IsTrans FLRow expiryLe := ⟨fun _ _ _ hab hbc => Int.le_trans hab hbc⟩

/-- The Food Listings page query (`app.py` lines 164-187): base join, the
selected equality filters, `ORDER BY fl.Expiry_Date` ascending. -/
def foodListingsQuery (db : DB) (city ft mt : String) : List FLRow :=
  List.insertionSort expiryLe ((flJoin db).filter (matchesFilter city ft mt))

/-- C2: for every combination of the optional equality filters (sentinel
`"All"` imposes no constraint) the Food Listings query result is a subset of
the unfiltered result, every returned row satisfies all selected filters,
and the rows are ordered by expiry date ascending.  (The query is a total
function into lists, so an empty match yields `[]`, never an error.) -/
theorem foodListingsQuery_filters_sound (db : DB) (city ft mt : String) :
    (∀ r ∈ foodListingsQuery db city ft mt, r ∈ foodListingsQuery db "All" "All" "All") ∧
    (∀ r ∈ foodListingsQuery db city ft mt,
      (city ≠ "All" → r.fl.Location = city) ∧
      (ft ≠ "All" → r.fl.Food_Type = ft) ∧
      (mt ≠ "All" → r.fl.Meal_Type = mt)) ∧
    List.Sorted expiryLe (foodListingsQuery db city ft mt) := by
  refine ⟨?_, ?_, List.sorted_insertionSort expiryLe _⟩
  · intro r hr
    rw [foodListingsQuery, List.mem_insertionSort, List.mem_filter] at hr ⊢
    exact ⟨hr.1, by simp [matchesFilter]⟩
  · intro r hr
    rw [foodListingsQuery, List.mem_insertionSort, List.mem_filter, matchesFilter] at hr
    have h := hr.2
    simp only [Bool.and_eq_true, Bool.or_eq_true, beq_iff_eq] at h
    refine ⟨fun hc => ?_, fun hf => ?_, fun hm => ?_⟩
    · exact (h.1.resolve_left hc)
    · exact (h.2.1.resolve_left hf)
    · exact (h.2.2.resolve_left hm)

/-- Result row of the Claims Management overview query (`app.py` lines
337-347): `Claim ⋈ FoodListing ⋈ Receiver ⋈ Provider`. -/
structure CRow where
  Claim_ID : Nat
  Status : String
  Timestamp : String
  Food_Name : String
  Quantity : Int
  Food_Type : String
  Receiver_Name : String
  Receiver_Type : String
  Provider_Name : String
deriving Repr, DecidableEq

/-- The three inner joins of the claims overview query (`app.py` lines
342-345). -/
def claimsJoin (db : DB) : List CRow :=
  db.claims.flatMap fun c =>
    (db.food_listings.filter fun fl => fl.Food_ID == c.Food_ID).flatMap fun fl =>
      (db.receivers.filter fun r => r.Receiver_ID == c.Receiver_ID).flatMap fun r =>
        (db.providers.filter fun p => p.Provider_ID == fl.Provider_ID).map fun p =>
          ⟨c.Claim_ID, c.Status, c.Timestamp, fl.Food_Name, fl.Quantity, fl.Food_Type,
           r.Name, r.Type_, p.Name⟩

/-- Comparison by timestamp, descending: the sort key of
`ORDER BY c.Timestamp DESC` (`app.py` line 346). -/
def tsGe (a b : CRow) : Prop := b.Timestamp ≤ a.Timestamp

instance : DecidableRel tsGe := fun a b =>
  inferInstanceAs (Decidable (b.Timestamp ≤ a.Timestamp))

instance : IsTotal CRow tsGe := ⟨fun a b => le_total b.Timestamp a.Timestamp⟩

instance : IsTrans CRow tsGe := ⟨fun _ _ _ hab hbc => le_trans hbc hab⟩

/-- The claims overview query (`app.py` lines 337-349): the join, ordered by
timestamp descending. -/
def claimsQuery (db : DB) : List CRow :=
  List.insertionSort tsGe (claimsJoin db)

/-- The client-side status filter on the claims overview (`app.py` lines
353-359): `claims[claims['Status'] == status_filter]` unless the filter is
the sentinel `"All"`. -/
def selectClaims (status : String) (rows : List CRow) : List CRow :=
  if status == "All" then rows else rows.filter fun r => r.Status == status

/-- Next `Claim_ID`: the `claims` INSERT (`app.py` lines 317-320) omits
`Claim_ID`, so SQLite assigns the rowid, one more than the largest in use. -/
def nextClaimId (db : DB) : Nat :=
  (db.claims.map Claim.Claim_ID).foldr max 0 + 1

/-- Claim creation (`app.py` lines 295-326): the page reaches the INSERT
`INSERT INTO claims (Food_ID, Receiver_ID, Status, Timestamp) VALUES
(?, ?, 'Pending', ?)` only when the chosen food listing resolved to a row
(line 303) and the receiver was chosen from the `receivers` table (lines
308-313); `now` is `datetime.now().strftime('%Y-%m-%d %H:%M:%S')`, the
current time at second precision. -/
def makeClaim (db : DB) (fid rid : Nat) (now : String) : DB :=
  if (db.food_listings.any fun fl => fl.Food_ID == fid) &&
     (db.receivers.any fun r => r.Receiver_ID == rid) then
    { db with claims := db.claims ++ [⟨nextClaimId db, fid, rid, "Pending", now⟩] }
  else db

/-- Claim status update (`app.py` lines 378-382): `UPDATE claims SET
Status = ? WHERE Claim_ID = ?`, committed with no validation of the status
value; `execute_insert_update_delete` returns `True` on success. -/
def updateClaimStatus (db : DB) (cid : Nat) (status : String) : Bool × DB :=
  (true, { db with claims := db.claims.map fun c =>
      if c.Claim_ID == cid then { c with Status := status } else c })

/-- Provider update (`app.py` lines 673-677): `UPDATE providers SET Name=?,
Type=?, Address=?, City=?, Contact=? WHERE Provider_ID=?`. -/
def updateProvider (db : DB) (pid : Nat) (name ty addr city contact : String) :
    Bool × DB :=
  (true, { db with providers := db.providers.map fun p =>
      if p.Provider_ID == pid then
        { p with Name := name, Type_ := ty, Address := addr, City := city,
                 Contact := contact }
      else p })

/-- The four tables of the CRUD Operations page (`app.py` line 566). -/
inductive Table
  | providers
  | receivers
  | food_listings
  | claims
deriving Repr, DecidableEq

/-- Generic delete (`app.py` lines 694-697): `DELETE FROM {table} WHERE
{primary_key} = ?`, the primary key being the table's first column. -/
def deleteRow (t : Table) (k : Nat) (db : DB) : Bool × DB :=
  match t with
  | Table.providers =>
      (true, { db with providers := db.providers.filter fun p => p.Provider_ID != k })
  | Table.receivers =>
      (true, { db with receivers := db.receivers.filter fun r => r.Receiver_ID != k })
  | Table.food_listings =>
      (true, { db with food_listings := db.food_listings.filter fun fl => fl.Food_ID != k })
  | Table.claims =>
      (true, { db with claims := db.claims.filter fun c => c.Claim_ID != k })

/-- The primary-key values present in a table. -/
def tableKeys (t : Table) (db : DB) : List Nat :=
  match t with
  | Table.providers => db.providers.map Provider.Provider_ID
  | Table.receivers => db.receivers.map Receiver.Receiver_ID
  | Table.food_listings => db.food_listings.map FoodListing.Food_ID
  | Table.claims => db.claims.map Claim.Claim_ID

/-- A sample database: one provider, one receiver, one listing, one pending
claim (the scenario of spec §8). -/
def exDB : DB :=
  { providers := [⟨1, "Acme", "Bakery", "1 Main St", "X", "111"⟩],
    receivers := [⟨1, "Hope NGO", "NGO", "X", "222"⟩],
    food_listings := [⟨1, "Bread", 10, daysFromCivil 2024 1 2, 1, "Bakery", "X",
                       "Vegetarian", "Breakfast"⟩],
    claims := [⟨1, 1, 1, "Pending", "2024-01-01 10:00:00"⟩] }

/-- C3: when the food listing id and receiver id resolve to existing rows,
claim creation appends exactly one new `claims` row, with status `Pending`
and the caller-supplied current-time string (`datetime.now` formatted to
second precision); no other status is possible for a fresh claim. -/
theorem makeClaim_inserts_single_pending (db : DB) (fid rid : Nat) (now : String)
    (hf : (db.food_listings.any fun fl => fl.Food_ID == fid) = true)
    (hr : (db.receivers.any fun r => r.Receiver_ID == rid) = true) :
    (makeClaim db fid rid now).claims
      = db.claims ++ [⟨nextClaimId db, fid, rid, "Pending", now⟩] ∧
    (makeClaim db fid rid now).claims.length = db.claims.length + 1 := by
  rw [makeClaim, if_pos (by rw [hf, hr]; rfl)]
  exact ⟨rfl, by rw [List.length_append, List.length_singleton]⟩

/-- Witness for C3 on the sample database. -/
theorem makeClaim_inserts_single_pending_witness :
    ((exDB.food_listings.any fun fl => fl.Food_ID == 1) = true) ∧
    ((exDB.receivers.any fun r => r.Receiver_ID == 1) = true) ∧
    (makeClaim exDB 1 1 "2024-01-01 12:00:00").claims
      = exDB.claims ++ [⟨nextClaimId exDB, 1, 1, "Pending", "2024-01-01 12:00:00"⟩] :=
  ⟨by decide, by decide,
   (makeClaim_inserts_single_pending exDB 1 1 "2024-01-01 12:00:00"
     (by decide) (by decide)).1⟩

/-- A sequence of claim-creation requests, applied in order. -/
def applyClaims (db : DB) (reqs : List (Nat × Nat × String)) : DB :=
  reqs.foldl (fun d req => makeClaim d req.1 req.2.1 req.2.2) db

theorem makeClaim_food_listings_eq (db : DB) (fid rid : Nat) (now : String) :
    (makeClaim db fid rid now).food_listings = db.food_listings := by
  rw [makeClaim]
  split <;> rfl

theorem applyClaims_food_listings_eq (db : DB) (reqs : List (Nat × Nat × String)) :
    (applyClaims db reqs).food_listings = db.food_listings := by
  induction reqs generalizing db with
  | nil => rfl
  | cons req rest ih =>
      rw [applyClaims, List.foldl_cons]
      rw [show List.foldl _ (makeClaim db req.1 req.2.1 req.2.2) rest
            = applyClaims (makeClaim db req.1 req.2.1 req.2.2) rest from rfl]
      rw [ih, makeClaim_food_listings_eq]

/-- C9: creating claims never touches the `food_listings` table: after any
sequence of claim creations, the table — in particular every listing's
`Quantity` — is unchanged. -/
theorem makeClaim_frame_food_listings (db : DB) (fid rid : Nat) (now : String)
    (reqs : List (Nat × Nat × String)) :
    (makeClaim db fid rid now).food_listings = db.food_listings ∧
    (applyClaims db reqs).food_listings = db.food_listings ∧
    (applyClaims db reqs).food_listings.map FoodListing.Quantity
      = db.food_listings.map FoodListing.Quantity :=
  ⟨makeClaim_food_listings_eq db fid rid now,
   applyClaims_food_listings_eq db reqs,
   by rw [applyClaims_food_listings_eq db reqs]⟩

/-- The valid claim statuses of the data model (spec §3) and exactly the
options offered by the status selectbox (`app.py` line 373). -/
def validStatus (s : String) : Prop :=
  s = "Pending" ∨ s = "Completed" ∨ s = "Cancelled"

instance (s : String) : Decidable (validStatus s) :=
  inferInstanceAs (Decidable (_ ∨ _))

/-- C4 counterexample: the status UPDATE performs no validation — updating a
claim's status to `"Bogus"`, a value outside {Pending, Completed,
Cancelled}, persists it and reports success. -/
theorem updateClaimStatus_invalid_persists :
    (updateClaimStatus exDB 1 "Bogus").2.claims.map Claim.Status = ["Bogus"] ∧
    (updateClaimStatus exDB 1 "Bogus").1 = true := by
  constructor <;> rfl

/-- C4 amended: the only call site of the status UPDATE draws the new status
from the selectbox options {Pending, Completed, Cancelled}, and for those
values the invariant `Claim.status ∈ {Pending, Completed, Cancelled}` is
preserved by every update; the UPDATE itself validates nothing and would
persist any other value. -/
theorem updateClaimStatus_selectbox_invariant (db : DB) (cid : Nat) (s : String)
    (hs : validStatus s) (hdb : ∀ c ∈ db.claims, validStatus c.Status) :
    ∀ c ∈ (updateClaimStatus db cid s).2.claims, validStatus c.Status := by
  intro c hc
  rw [updateClaimStatus] at hc
  simp only [List.mem_map] at hc
  obtain ⟨c0, hc0, rfl⟩ := hc
  by_cases h : (c0.Claim_ID == cid) = true
  · rw [if_pos h]
    exact hs
  · rw [if_neg h]
    exact hdb c0 hc0

/-- Witness for the amended C4 on the sample database. -/
theorem updateClaimStatus_selectbox_invariant_witness :
    validStatus "Completed" ∧ (∀ c ∈ exDB.claims, validStatus c.Status) ∧
    ∀ c ∈ (updateClaimStatus exDB 1 "Completed").2.claims, validStatus c.Status :=
  ⟨by decide, by decide,
   updateClaimStatus_selectbox_invariant exDB 1 "Completed" (by decide) (by decide)⟩

theorem map_id_of_mem {α : Type} {l : List α} {f : α → α}
    (h : ∀ a ∈ l, f a = a) : l.map f = l := by
  induction l with
  | nil => rfl
  | cons a t ih =>
      rw [List.map_cons, h a (List.mem_cons_self a t),
          ih fun x hx => h x (List.mem_cons_of_mem a hx)]

/-- C5: an UPDATE or DELETE against a primary-key value not present in the
table affects zero rows, leaves the whole database unchanged, and is still
reported as success (`execute_insert_update_delete` returns `True`): a
silent no-op. -/
theorem missing_key_silent_noop (db : DB) (k : Nat) (n ty a ci co s : String) :
    (∀ t : Table, k ∉ tableKeys t db → deleteRow t k db = (true, db)) ∧
    (k ∉ tableKeys Table.claims db → updateClaimStatus db k s = (true, db)) ∧
    (k ∉ tableKeys Table.providers db →
      updateProvider db k n ty a ci co = (true, db)) := by
  refine ⟨fun t ht => ?_, fun hc => ?_, fun hp => ?_⟩
  · cases t with
    | providers =>
        have : db.providers.filter (fun p => p.Provider_ID != k) = db.providers := by
          refine List.filter_eq_self.mpr fun p hp => ?_
          rw [bne_iff_ne]
          exact fun he => ht (he ▸ List.mem_map_of_mem Provider.Provider_ID hp)
        rw [deleteRow, this]
    | receivers =>
        have : db.receivers.filter (fun r => r.Receiver_ID != k) = db.receivers := by
          refine List.filter_eq_self.mpr fun r hr => ?_
          rw [bne_iff_ne]
          exact fun he => ht (he ▸ List.mem_map_of_mem Receiver.Receiver_ID hr)
        rw [deleteRow, this]
    | food_listings =>
        have : db.food_listings.filter (fun fl => fl.Food_ID != k)
            = db.food_listings := by
          refine List.filter_eq_self.mpr fun fl hfl => ?_
          rw [bne_iff_ne]
          exact fun he => ht (he ▸ List.mem_map_of_mem FoodListing.Food_ID hfl)
        rw [deleteRow, this]
    | claims =>
        have : db.claims.filter (fun c => c.Claim_ID != k) = db.claims := by
          refine List.filter_eq_self.mpr fun c hcm => ?_
          rw [bne_iff_ne]
          exact fun he => ht (he ▸ List.mem_map_of_mem Claim.Claim_ID hcm)
        rw [deleteRow, this]
  · have : (db.claims.map fun c =>
        if c.Claim_ID == k then { c with Status := s } else c) = db.claims := by
      refine map_id_of_mem fun c hcm => ?_
      rw [if_neg ?_]
      rw [beq_iff_eq]
      exact fun he => hc (he ▸ List.mem_map_of_mem Claim.Claim_ID hcm)
    rw [updateClaimStatus, this]
  · have : (db.providers.map fun p =>
        if p.Provider_ID == k then
          { p with Name := n, Type_ := ty, Address := a, City := ci, Contact := co }
        else p) = db.providers := by
      refine map_id_of_mem fun p hpm => ?_
      rw [if_neg ?_]
      rw [beq_iff_eq]
      exact fun he => hp (he ▸ List.mem_map_of_mem Provider.Provider_ID hpm)
    rw [updateProvider, this]

/-- Witness for C5: key 99 exists in no table of the sample database. -/
theorem missing_key_silent_noop_witness :
    (99 ∉ tableKeys Table.claims exDB) ∧ (99 ∉ tableKeys Table.providers exDB) ∧
    deleteRow Table.claims 99 exDB = (true, exDB) ∧
    updateClaimStatus exDB 99 "Completed" = (true, exDB) ∧
    updateProvider exDB 99 "N" "T" "A" "C" "Ct" = (true, exDB) :=
  ⟨by decide, by decide,
   (missing_key_silent_noop exDB 99 "N" "T" "A" "C" "Ct" "Completed").1
     Table.claims (by decide),
   (missing_key_silent_noop exDB 99 "N" "T" "A" "C" "Ct" "Completed").2.1 (by decide),
   (missing_key_silent_noop exDB 99 "N" "T" "A" "C" "Ct" "Completed").2.2 (by decide)⟩

/-- C6: for any status other than the sentinel `"All"`, the status filter
keeps exactly the joined claim rows whose status equals it; the claims
listing (and hence its filtered view) is ordered by timestamp descending;
and after updating a claim's status to `Completed`, every joined row of
that claim appears under the `Completed` filter and no longer under
`Pending`. -/
theorem selectClaims_status_exact (db : DB) (s : String) (cid : Nat)
    (hs : s ≠ "All") :
    (∀ r, r ∈ selectClaims s (claimsQuery db) ↔
      r ∈ claimsQuery db ∧ r.Status = s) ∧
    List.Sorted tsGe (claimsQuery db) ∧
    List.Sorted tsGe (selectClaims s (claimsQuery db)) ∧
    (∀ r ∈ claimsQuery (updateClaimStatus db cid "Completed").2,
      r.Claim_ID = cid →
        r ∈ selectClaims "Completed" (claimsQuery (updateClaimStatus db cid "Completed").2) ∧
        r ∉ selectClaims "Pending" (claimsQuery (updateClaimStatus db cid "Completed").2)) := by
  have hsel : ∀ (s' : String), s' ≠ "All" → ∀ (rows : List CRow) (r : CRow),
      r ∈ selectClaims s' rows ↔ r ∈ rows ∧ r.Status = s' := by
    intro s' hs' rows r
    rw [selectClaims, if_neg (by simpa using hs'), List.mem_filter, beq_iff_eq]
  have hstatus : ∀ r ∈ claimsQuery (updateClaimStatus db cid "Completed").2,
      r.Claim_ID = cid → r.Status = "Completed" := by
    intro r hr hid
    rw [claimsQuery, List.mem_insertionSort, claimsJoin] at hr
    simp only [List.mem_flatMap, List.mem_map, List.mem_filter] at hr
    obtain ⟨c, hc, fl, _, rr, _, p, _, rfl⟩ := hr
    rw [updateClaimStatus] at hc
    simp only [List.mem_map] at hc
    obtain ⟨c0, _, rfl⟩ := hc
    by_cases h0 : (c0.Claim_ID == cid) = true
    · rw [if_pos h0]
    · rw [if_neg h0] at hid
      exact absurd (beq_iff_eq.mpr hid) h0
  refine ⟨hsel s hs _, List.sorted_insertionSort tsGe _,
    ?_, fun r hr hid => ?_⟩
  · rw [selectClaims]
    split
    · exact List.sorted_insertionSort tsGe _
    · exact List.Pairwise.filter _ (List.sorted_insertionSort tsGe _)
  · have hst := hstatus r hr hid
    constructor
    · exact (hsel "Completed" (by decide) _ r).mpr ⟨hr, hst⟩
    · intro hmem
      have := ((hsel "Pending" (by decide) _ r).mp hmem).2
      rw [hst] at this
      exact absurd this (by decide)

/-- Witness for C6 on the sample database: its single pending claim's joined
row under the `"Pending"` filter. -/
theorem selectClaims_status_exact_witness :
    ("Pending" ≠ "All") ∧
    (⟨1, "Pending", "2024-01-01 10:00:00", "Bread", 10, "Vegetarian",
      "Hope NGO", "NGO", "Acme"⟩ ∈ selectClaims "Pending" (claimsQuery exDB) ↔
     ⟨1, "Pending", "2024-01-01 10:00:00", "Bread", 10, "Vegetarian",
      "Hope NGO", "NGO", "Acme"⟩ ∈ claimsQuery exDB ∧
     CRow.Status ⟨1, "Pending", "2024-01-01 10:00:00", "Bread", 10, "Vegetarian",
      "Hope NGO", "NGO", "Acme"⟩ = "Pending") :=
  ⟨by decide,
   (selectClaims_status_exact exDB "Pending" 1 (by decide)).1
     ⟨1, "Pending", "2024-01-01 10:00:00", "Bread", 10, "Vegetarian",
      "Hope NGO", "NGO", "Acme"⟩⟩

/-- `SELECT SUM(Quantity) as total FROM food_listings` (`app.py` line 397),
with the `or 0` null-coalescing of line 406 (SQL `SUM` over no rows is NULL). -/
def totalQuantity (db : DB) : Int :=
  (db.food_listings.map FoodListing.Quantity).sum

/-- The join rows of the claimed-food query (`app.py` lines 398-403):
`FROM food_listings fl JOIN claims c ON fl.Food_ID = c.Food_ID WHERE
c.Status = 'Completed'`. -/
def completedPairs (db : DB) : List (FoodListing × Claim) :=
  db.food_listings.flatMap fun fl =>
    (db.claims.filter fun c =>
      c.Food_ID == fl.Food_ID && c.Status == "Completed").map fun c => (fl, c)

/-- `SUM(fl.Quantity)` over the claimed-food join (`app.py` line 399), with
the `or 0` null-coalescing of line 407. -/
def claimedQuantity (db : DB) : Int :=
  ((completedPairs db).map fun pr => pr.1.Quantity).sum

/-- The waste-prevented metric (`app.py` line 408):
`(claimed_val / total_val * 100) if total_val > 0 else 0`, in exact rational
arithmetic. -/
def wastePrevented (db : DB) : ℚ :=
  if totalQuantity db > 0 then
    (claimedQuantity db : ℚ) / (totalQuantity db : ℚ) * 100
  else 0

/-- The metric as the spec words it: the numerator sums each listing's
quantity once if the listing has at least one Completed claim.  (Stated for
refinement comparison with `wastePrevented`, which is the code's join.) -/
def specClaimedQuantity (db : DB) : Int :=
  ((db.food_listings.filter fun fl =>
      db.claims.any fun c =>
        c.Food_ID == fl.Food_ID && c.Status == "Completed").map
    FoodListing.Quantity).sum

/-- The waste-prevented metric as the spec words it. -/
def specWastePrevented (db : DB) : ℚ :=
  if totalQuantity db = 0 then 0
  else (specClaimedQuantity db : ℚ) / (totalQuantity db : ℚ) * 100

/-- A database in which one listing (quantity 10) carries two Completed
claims: the code's join counts the quantity once per claim. -/
def exDBDouble : DB :=
  { providers := [⟨1, "Acme", "Bakery", "1 Main St", "X", "111"⟩],
    receivers := [⟨1, "Hope NGO", "NGO", "X", "222"⟩],
    food_listings := [⟨1, "Bread", 10, daysFromCivil 2024 1 2, 1, "Bakery", "X",
                       "Vegetarian", "Breakfast"⟩],
    claims := [⟨1, 1, 1, "Completed", "2024-01-01 10:00:00"⟩,
               ⟨2, 1, 1, "Completed", "2024-01-01 11:00:00"⟩] }

/-- C1 counterexample: on `exDBDouble` the code's metric is 200% — each
Completed claim re-counts the listing's quantity — while the claimed formula
(sum over listings with at least one Completed claim) gives 100%. -/
theorem wastePrevented_ne_spec :
    wastePrevented exDBDouble = 200 ∧ specWastePrevented exDBDouble = 100 ∧
    wastePrevented exDBDouble ≠ specWastePrevented exDBDouble := by
  have h1 : claimedQuantity exDBDouble = 20 := by decide
  have h2 : totalQuantity exDBDouble = 10 := by decide
  have h3 : specClaimedQuantity exDBDouble = 10 := by decide
  have hw : wastePrevented exDBDouble = 200 := by
    rw [wastePrevented, h1, h2]
    norm_num
  have hv : specWastePrevented exDBDouble = 100 := by
    rw [specWastePrevented, h3, h2]
    norm_num
  refine ⟨hw, hv, by rw [hw, hv]; norm_num⟩

theorem sum_map_flatMap {α β : Type} (l : List α) (g : α → List β) (f : β → Int) :
    ((l.flatMap g).map f).sum = (l.map fun a => ((g a).map f).sum).sum := by
  induction l with
  | nil => rfl
  | cons a t ih =>
      rw [List.flatMap_cons, List.map_append, List.sum_append, ih,
          List.map_cons, List.sum_cons]

theorem sum_map_const_int {α : Type} (l : List α) (q : Int) :
    (l.map fun _ => q).sum = l.length * q := by
  induction l with
  | nil => simp
  | cons a t ih =>
      rw [List.map_cons, List.sum_cons, ih, List.length_cons]
      push_cast
      ring

/-- C1 amended: the metric is 0 whenever the total listed quantity is 0 (or
negative) — no division by zero occurs — and otherwise equals
(join-sum / total) × 100 where the join-sum counts a listing's quantity once
per Completed claim on it (not once per listing, as the spec words it). -/
theorem wastePrevented_characterization (db : DB) :
    (totalQuantity db = 0 → wastePrevented db = 0) ∧
    (totalQuantity db > 0 →
      wastePrevented db * totalQuantity db = claimedQuantity db * 100) ∧
    claimedQuantity db
      = (db.food_listings.map fun fl =>
          fl.Quantity * ((db.claims.filter fun c =>
            c.Food_ID == fl.Food_ID && c.Status == "Completed").length : Int)).sum := by
  refine ⟨fun h => ?_, fun h => ?_, ?_⟩
  · rw [wastePrevented, if_neg (by rw [h]; exact lt_irrefl 0)]
  · rw [wastePrevented, if_pos h]
    have h0 : (totalQuantity db : ℚ) ≠ 0 := by
      exact_mod_cast h.ne'
    field_simp
  · rw [claimedQuantity, completedPairs, sum_map_flatMap]
    refine congrArg List.sum (List.map_congr_left fun fl _ => ?_)
    rw [List.map_map]
    rw [show ((fun pr : FoodListing × Claim => pr.1.Quantity) ∘
          fun c => (fl, c)) = fun _ => fl.Quantity from rfl]
    rw [sum_map_const_int, Int.mul_comm]

/-- Witness for the amended C1 on `exDBDouble` (total 10 > 0). -/
theorem wastePrevented_characterization_witness :
    totalQuantity exDBDouble > 0 ∧
    wastePrevented exDBDouble * totalQuantity exDBDouble
      = claimedQuantity exDBDouble * 100 :=
  ⟨by decide, (wastePrevented_characterization exDBDouble).2.1 (by decide)⟩

/-- The "Expiring Soon" metric (`app.py` lines 528-535): `SELECT COUNT(*)
FROM food_listings WHERE DATE(Expiry_Date) <= DATE('now', '+3 days')`, with
`today` the current date as a day number. -/
def expiringSoon (db : DB) (today : Int) : Nat :=
  (db.food_listings.filter fun fl => fl.Expiry_Date ≤ today + 3).length

/-- The metric as the spec words it: listings whose expiry date lies within
3 days of the current date (at distance at most 3 days).  (Stated for
refinement comparison with `expiringSoon`, which has no lower bound.) -/
def specExpiringWithin (db : DB) (today : Int) : Nat :=
  (db.food_listings.filter fun fl =>
    today - 3 ≤ fl.Expiry_Date && fl.Expiry_Date ≤ today + 3).length

/-- A database with a single listing that expired on 2020-01-01. -/
def exDBStale : DB :=
  { providers := [⟨1, "Acme", "Bakery", "1 Main St", "X", "111"⟩],
    receivers := [],
    food_listings := [⟨1, "Old Bread", 5, daysFromCivil 2020 1 1, 1, "Bakery",
                       "X", "Vegetarian", "Lunch"⟩],
    claims := [] }

/-- C7 counterexample: with the current date 2024-01-01, a listing that
expired on 2020-01-01 — four years earlier, not within 3 days of the current
date — is still counted by the code's metric, whose `WHERE` clause has no
lower bound. -/
theorem expiringSoon_counts_long_expired :
    expiringSoon exDBStale (daysFromCivil 2024 1 1) = 1 ∧
    specExpiringWithin exDBStale (daysFromCivil 2024 1 1) = 0 ∧
    expiringSoon exDBStale (daysFromCivil 2024 1 1)
      ≠ specExpiringWithin exDBStale (daysFromCivil 2024 1 1) := by
  refine ⟨by decide, by decide, by decide⟩

/-- C7 amended: the metric counts the listings whose expiry date is at most
3 days after the current date, with no lower bound (already-expired listings
are included); when no listing has already expired, this agrees with the
claimed "within 3 days of the current date" count.  The spec's scenario
(now 2024-01-01, listings expiring 2024-01-02 and 2024-01-10, count 1) is
checked in the witness. -/
theorem expiringSoon_eq_within_of_not_expired (db : DB) (today : Int)
    (h : ∀ fl ∈ db.food_listings, today ≤ fl.Expiry_Date) :
    expiringSoon db today = specExpiringWithin db today := by
  rw [expiringSoon, specExpiringWithin]
  refine congrArg List.length (List.filter_congr fun fl hfl => ?_)
  have h2 : (today - 3 ≤ fl.Expiry_Date) = True := eq_true (by have := h fl hfl; omega)
  simp [h2]

/-- The spec §8 scenario database: listings expiring 2024-01-02 and
2024-01-10. -/
def exDBScenario : DB :=
  { providers := [⟨1, "Acme", "Bakery", "1 Main St", "X", "111"⟩],
    receivers := [],
    food_listings := [⟨1, "Bread", 10, daysFromCivil 2024 1 2, 1, "Bakery", "X",
                       "Vegetarian", "Breakfast"⟩,
                      ⟨2, "Rice", 20, daysFromCivil 2024 1 10, 1, "Bakery", "X",
                       "Vegetarian", "Lunch"⟩],
    claims := [] }

/-- Witness for the amended C7 on the spec's scenario: with now = 2024-01-01
the count is 1 (only the 2024-01-02 listing). -/
theorem expiringSoon_eq_within_of_not_expired_witness :
    (∀ fl ∈ exDBScenario.food_listings,
      daysFromCivil 2024 1 1 ≤ fl.Expiry_Date) ∧
    expiringSoon exDBScenario (daysFromCivil 2024 1 1)
      = specExpiringWithin exDBScenario (daysFromCivil 2024 1 1) ∧
    expiringSoon exDBScenario (daysFromCivil 2024 1 1) = 1 :=
  ⟨by decide,
   expiringSoon_eq_within_of_not_expired exDBScenario (daysFromCivil 2024 1 1)
     (by decide),
   by decide⟩

/-- Result row of the top-providers query (`app.py` lines 483-496):
`COUNT` aggregates are never NULL, but `SUM(fl.Quantity)` is NULL (`none`)
when the provider's group has no listing rows. -/
structure TPRow where
  Name : String
  Type_ : String
  Total_Listings : Nat
  Total_Quantity : Option Int
  Total_Claims : Nat
deriving Repr, DecidableEq

/-- The LEFT JOIN rows of one provider's group in the top-providers query
(`app.py` lines 490-493): a provider with no listings keeps a single row
with NULL listing and claim; a listing with no claims keeps a row with NULL
claim. -/
def tpJoinRows (db : DB) (p : Provider) : List (Option FoodListing × Option Claim) :=
  if (db.food_listings.filter fun fl => fl.Provider_ID == p.Provider_ID).isEmpty then
    [(none, none)]
  else
    (db.food_listings.filter fun fl => fl.Provider_ID == p.Provider_ID).flatMap
      fun fl =>
        if (db.claims.filter fun c => c.Food_ID == fl.Food_ID).isEmpty then
          [(some fl, none)]
        else
          (db.claims.filter fun c => c.Food_ID == fl.Food_ID).map
            fun c => (some fl, some c)

/-- `SUM(fl.Quantity)` over a group (`app.py` line 488): sums the non-NULL
values, NULL when there are none. -/
def sumQuantities (rows : List (Option FoodListing × Option Claim)) : Option Int :=
  if (rows.filterMap fun r => r.1.map FoodListing.Quantity).isEmpty then none
  else some (rows.filterMap fun r => r.1.map FoodListing.Quantity).sum

/-- One provider's aggregated row of the top-providers query (`app.py` lines
484-493): `COUNT(fl.Food_ID)`, `SUM(fl.Quantity)`, `COUNT(c.Claim_ID)` over
the provider's group (`Provider_ID` is the primary key, so grouping by it
yields exactly one group per provider row). -/
def tpRowOf (db : DB) (p : Provider) : TPRow :=
  { Name := p.Name,
    Type_ := p.Type_,
    Total_Listings := ((tpJoinRows db p).filter fun r => r.1.isSome).length,
    Total_Quantity := sumQuantities (tpJoinRows db p),
    Total_Claims := ((tpJoinRows db p).filter fun r => r.2.isSome).length }

/-- SQL ordering of nullable integers: NULL below every value, so in
`ORDER BY ... DESC` NULL rows come last. -/
def optIntLe (x y : Option Int) : Prop :=
  match x, y with
  | none, _ => True
  | some _, none => False
  | some a, some b => a ≤ b

instance : DecidableRel optIntLe := fun x y =>
  match x, y with
  | none, _ => inferInstanceAs (Decidable True)
  | some _, none => inferInstanceAs (Decidable False)
  | some a, some b => inferInstanceAs (Decidable (a ≤ b))

/-- Comparison by total quantity, descending: the sort key of
`ORDER BY Total_Quantity DESC` (`app.py` line 494). -/
def qtyGe (a b : TPRow) : Prop := optIntLe b.Total_Quantity a.Total_Quantity

instance : DecidableRel qtyGe := fun a b =>
  inferInstanceAs (Decidable (optIntLe b.Total_Quantity a.Total_Quantity))

/-- The top-providers query (`app.py` lines 483-496): one aggregated row per
provider, ordered by total quantity descending, `LIMIT 10`. -/
def topProviders (db : DB) : List TPRow :=
  (List.insertionSort qtyGe (db.providers.map (tpRowOf db))).take 10

/-- A database with a single provider and no listings or claims. -/
def exDBLonely : DB :=
  { providers := [⟨1, "Solo", "Bakery", "1 Main St", "X", "111"⟩],
    receivers := [], food_listings := [], claims := [] }

/-- A database with eleven providers: P1..P10 each have one listing of
quantity 5; provider Z has none. -/
def exDBEleven : DB :=
  { providers := ((List.range 10).map fun i =>
      ⟨i + 1, "P", "Bakery", "1 Main St", "X", "111"⟩) ++
      [⟨11, "Z", "Bakery", "1 Main St", "X", "111"⟩],
    receivers := [],
    food_listings := (List.range 10).map fun i =>
      ⟨i + 1, "Bread", 5, 0, i + 1, "Bakery", "X", "Vegetarian", "Lunch"⟩,
    claims := [] }

/-- C8 counterexample: a provider with zero listings gets `Total_Quantity =
NULL`, not 0 — the code displays the query result without coalescing — and
with eleven providers the zero-listing provider Z is cut by `LIMIT 10` and
does not appear at all. -/
theorem topProviders_null_and_limit :
    (topProviders exDBLonely).map TPRow.Total_Quantity = [none] ∧
    (none : Option Int) ≠ some 0 ∧
    exDBEleven.providers.length = 11 ∧
    "Z" ∉ (topProviders exDBEleven).map TPRow.Name := by
  refine ⟨by decide, by decide, by decide, by decide⟩

theorem tp_claims_count_aux (db : DB) (fls : List FoodListing)
    (h : ∀ fl ∈ fls,
      (db.claims.filter fun c => c.Food_ID == fl.Food_ID).isEmpty = true) :
    ((fls.flatMap fun fl =>
        if (db.claims.filter fun c => c.Food_ID == fl.Food_ID).isEmpty then
          [((some fl : Option FoodListing), (none : Option Claim))]
        else
          (db.claims.filter fun c => c.Food_ID == fl.Food_ID).map fun c =>
            (some fl, some c)).filter fun r => r.2.isSome).length = 0 := by
  induction fls with
  | nil => rfl
  | cons fl t ih =>
      rw [List.flatMap_cons, List.filter_append, List.length_append,
          ih fun x hx => h x (List.mem_cons_of_mem fl hx),
          if_pos (h fl (List.mem_cons_self fl t))]
      rfl

/-- C8 amended: when there are at most 10 providers (so `LIMIT 10` cuts
nothing), every provider appears as a row of the top-providers report even
with zero listings or zero claims (LEFT JOIN semantics); its COUNT
aggregates are 0, but its quantity aggregate is NULL — not 0 — when it has
no listings, and the code displays it uncoalesced. -/
theorem topProviders_left_join_zero (db : DB) (hlen : db.providers.length ≤ 10) :
    ∀ p ∈ db.providers, tpRowOf db p ∈ topProviders db ∧
      ((db.food_listings.filter fun fl =>
          fl.Provider_ID == p.Provider_ID).isEmpty = true →
        (tpRowOf db p).Total_Listings = 0 ∧
        (tpRowOf db p).Total_Quantity = none ∧
        (tpRowOf db p).Total_Claims = 0) ∧
      ((∀ fl ∈ db.food_listings.filter fun fl =>
          fl.Provider_ID == p.Provider_ID,
          (db.claims.filter fun c => c.Food_ID == fl.Food_ID).isEmpty = true) →
        (tpRowOf db p).Total_Claims = 0) := by
  intro p hp
  have htake : topProviders db
      = List.insertionSort qtyGe (db.providers.map (tpRowOf db)) := by
    rw [topProviders]
    refine List.take_of_length_le ?_
    rw [(List.perm_insertionSort qtyGe _).length_eq, List.length_map]
    exact hlen
  refine ⟨?_, fun hsE => ?_, fun hcE => ?_⟩
  · rw [htake, List.mem_insertionSort]
    exact List.mem_map_of_mem (tpRowOf db) hp
  · have htp : tpJoinRows db p = [(none, none)] := by
      rw [tpJoinRows, if_pos hsE]
    refine ⟨?_, ?_, ?_⟩
    · show ((tpJoinRows db p).filter fun r => r.1.isSome).length = 0
      rw [htp]
      rfl
    · show sumQuantities (tpJoinRows db p) = none
      rw [htp]
      rfl
    · show ((tpJoinRows db p).filter fun r => r.2.isSome).length = 0
      rw [htp]
      rfl
  · show ((tpJoinRows db p).filter fun r => r.2.isSome).length = 0
    rw [tpJoinRows]
    by_cases hsE : (db.food_listings.filter fun fl =>
        fl.Provider_ID == p.Provider_ID).isEmpty = true
    · rw [if_pos hsE]
      rfl
    · rw [if_neg hsE]
      exact tp_claims_count_aux db _ hcE

/-- Witness for the amended C8 on the single-provider database. -/
theorem topProviders_left_join_zero_witness :
    exDBLonely.providers.length ≤ 10 ∧
    (tpRowOf exDBLonely ⟨1, "Solo", "Bakery", "1 Main St", "X", "111"⟩
      ∈ topProviders exDBLonely) ∧
    (tpRowOf exDBLonely ⟨1, "Solo", "Bakery", "1 Main St", "X", "111"⟩).Total_Listings = 0 ∧
    (tpRowOf exDBLonely ⟨1, "Solo", "Bakery", "1 Main St", "X", "111"⟩).Total_Quantity = none ∧
    (tpRowOf exDBLonely ⟨1, "Solo", "Bakery", "1 Main St", "X", "111"⟩).Total_Claims = 0 := by
  have h := topProviders_left_join_zero exDBLonely (by decide)
    ⟨1, "Solo", "Bakery", "1 Main St", "X", "111"⟩ (by decide)
  have hz := h.2.1 (by decide)
  exact ⟨by decide, h.1, hz.1, hz.2.1, hz.2.2⟩

/-- Witness for C2 on the sample database at a concrete filter choice. -/
theorem foodListingsQuery_filters_sound_witness :
    (∀ r ∈ foodListingsQuery exDB "X" "Vegetarian" "Breakfast",
      r ∈ foodListingsQuery exDB "All" "All" "All") ∧
    List.Sorted expiryLe (foodListingsQuery exDB "X" "Vegetarian" "Breakfast") :=
  ⟨(foodListingsQuery_filters_sound exDB "X" "Vegetarian" "Breakfast").1,
   (foodListingsQuery_filters_sound exDB "X" "Vegetarian" "Breakfast").2.2⟩
